import Mathlib

/-!
Shallow embedding of the DealerEye analytics core:

* `control_plane/metrics/engine.py` — `MetricsEngine` (TTG, rack time,
  lobby occupancy);
* `edge/analytics/zone_line_engine.py` — `ZoneLineEngine` (zone/line
  classification, dwell and greet-proximity scans).

Modelling conventions.
Timestamps are rationals counting seconds (the Python code compares
`datetime`s and takes `total_seconds()`); UUIDs are naturals; track ids
are strings.  A Python dict whose iteration order matters is an
association list with unique keys (assignment updates in place, a new
key is appended at the end); a `defaultdict` that is only ever indexed
is a total function with the default as initial value.  `datetime.utcnow()`
is passed in as an explicit `now` argument.  An incoming event dict is a
record of `Option` fields: `none` models a missing key, so a `event["k"]`
lookup that would raise `KeyError` becomes an `Except` error; the error
value carries the state mutated before the raise, because `process_event`
catches all exceptions after partial mutation.  Logging is modelled as a
list of `(level, message)` entries produced by a call.
-/

set_option autoImplicit false

namespace DealerEye

abbrev Time := ℚ

/-- `shared/schemas/events.py`: `EventType` (string enum). -/
inductive EventType
  | vehicle_arrival | vehicle_exit | greet_started
  | bay_entry | bay_exit | lobby_enter | lobby_exit
  | perimeter_crossing | system_heartbeat | zone_dwell | line_crossing
  deriving DecidableEq, Repr

/-- `shared/schemas/events.py`: `ObjectClass`. -/
inductive ObjectClass
  | person | vehicle | bicycle | motorcycle | truck | bus
  deriving DecidableEq, Repr

/-- `shared/models/metrics.py`: `MetricName`. -/
inductive MetricName
  | time_to_greet | rack_time | lobby_occupancy
  | oil_change_cycle_time | drive_throughput
  | avg_rack_time_by_tech | after_hours_crossings
  deriving DecidableEq, Repr

/-- `shared/models/metrics.py`: `WindowSize` (only `ONE_MINUTE` is used
by the engine). -/
inductive WindowSize
  | one_minute | five_minutes | fifteen_minutes | one_hour | one_day
  deriving DecidableEq, Repr

/-- Severity of a `logging` call in the Python source. -/
inductive LogLevel
  | info | warning | error
  deriving DecidableEq, Repr

/-- One `logger.<level>(msg)` call. -/
structure LogEntry where
  level : LogLevel
  msg : String
  deriving DecidableEq, Repr

/-- An incoming event dict as received by `MetricsEngine.process_event`
(and as buffered in `arrivals_buffer` / `bay_entries`): every key may be
absent.  Only the keys the engine ever reads are modelled. -/
structure RawEvent where
  event_type : Option EventType := none
  event_id : Option Nat := none
  tenant_id : Option Nat := none
  site_id : Option Nat := none
  camera_id : Option Nat := none
  timestamp : Option Time := none
  track_id : Option String := none
  vehicle_track_id : Option String := none
  zone_id : Option Nat := none
  bay_id : Option Nat := none
  door_id : Option Nat := none
  deriving DecidableEq, Repr

/-- `shared/models/metrics.py`: `MetricValue`.  `created_at` (a
`utcnow()` default never read by the engine) is omitted.  Dimension
values are uniformly `Option Nat`: `door_id` comes from `event.get(...)`
and may be `none`. -/
structure MetricValue where
  metric_id : Nat
  tenant_id : Nat
  site_id : Nat
  metric_name : MetricName
  window_start : Time
  window_size : WindowSize
  value : ℚ
  unit : String
  dimensions : List (String × Option Nat) := []
  is_estimated : Bool := false
  deriving DecidableEq, Repr

/-- `MetricsEngine.__init__` state.  `greets_buffer` is initialised in
the source but never read or written afterwards, so it is omitted. -/
structure MetricsEngine where
  arrivals_buffer : Nat → List RawEvent
  bay_entries : Nat → String → Option RawEvent
  lobby_counts : Nat → Int

/-- Fresh engine: all `defaultdict`s empty. -/
def MetricsEngine.init : MetricsEngine :=
  ⟨fun _ => [], fun _ _ => none, fun _ => 0⟩

/-- `self.ttg_max_match_window = timedelta(minutes=5)`, in seconds. -/
def ttg_max_match_window : Time := 300

/-- `self.buffer_retention = timedelta(hours=1)`, in seconds. -/
def buffer_retention : Time := 3600

/-- `MetricsEngine._on_vehicle_arrival`.  The event is appended to the
site buffer before `event["timestamp"]` is read, so a missing timestamp
raises with the append already done; the retention filter re-reads every
buffered arrival's timestamp and raises (leaving the appended buffer in
place) if any is missing. -/
def onVehicleArrival (eng : MetricsEngine) (e : RawEvent) :
    Except MetricsEngine MetricsEngine :=
  match e.site_id with
  | none => .error eng
  | some site =>
    let eng1 : MetricsEngine :=
      { eng with arrivals_buffer :=
          fun s => if s = site then eng.arrivals_buffer site ++ [e]
                   else eng.arrivals_buffer s }
    match e.timestamp with
    | none => .error eng1
    | some ts =>
      let buf := eng1.arrivals_buffer site
      if buf.all (fun a => a.timestamp.isSome) then
        .ok { eng1 with arrivals_buffer :=
          fun s => if s = site
                   then buf.filter (fun a => ts - buffer_retention < a.timestamp.getD 0)
                   else eng1.arrivals_buffer s }
      else .error eng1

/-- The arrival-matching loop of `MetricsEngine._on_greet_started`
(lines 102–110): fold over the buffered arrivals keeping the smallest
delta `min_delta` with `0 < delta < ttg_max_match_window` among arrivals
whose `track_id` equals the greet's vehicle track.  `matched_arrival`
is `some` exactly when `min_delta` is, so only the delta is tracked.
Reading `arrival["track_id"]` (and, on a track match, its timestamp)
raises if the key is missing. -/
def findMatchGo (vtrack : String) (gt : Time) :
    List RawEvent → Option Time → Except Unit (Option Time)
  | [], acc => .ok acc
  | a :: rest, acc =>
    match a.track_id with
    | none => .error ()
    | some tid =>
      if tid = vtrack then
        match a.timestamp with
        | none => .error ()
        | some ts =>
          let delta := gt - ts
          if 0 < delta ∧ delta < ttg_max_match_window then
            match acc with
            | none => findMatchGo vtrack gt rest (some delta)
            | some m =>
              if delta < m then findMatchGo vtrack gt rest (some delta)
              else findMatchGo vtrack gt rest (some m)
          else findMatchGo vtrack gt rest acc
      else findMatchGo vtrack gt rest acc

/-- `MetricsEngine._on_greet_started`.  No state is mutated; an error
carries the log lines emitted before the raise (the `logger.info` fires
before the `MetricValue` construction that may raise). -/
def onGreetStarted (eng : MetricsEngine) (e : RawEvent) :
    Except (List LogEntry) (Option MetricValue × List LogEntry) :=
  match e.site_id with
  | none => .error []
  | some site =>
  match e.timestamp with
  | none => .error []
  | some greet_time =>
  match e.vehicle_track_id with
  | none => .error []
  | some vtrack =>
  match findMatchGo vtrack greet_time (eng.arrivals_buffer site) none with
  | .error _ => .error []
  | .ok none =>
    match e.event_id with
    | none => .error []
    | some _ =>
      .ok (none, [⟨.warning, "No matching arrival found for greet event"⟩])
  | .ok (some min_delta) =>
    match e.event_id, e.tenant_id, e.camera_id, e.zone_id with
    | some eid, some tid, some cam, some zid =>
      .ok (some
        { metric_id := eid, tenant_id := tid, site_id := site,
          metric_name := .time_to_greet, window_start := greet_time,
          window_size := .one_minute, value := min_delta, unit := "seconds",
          dimensions := [("camera_id", some cam), ("zone_id", some zid)] },
        [⟨.info, "TTG computed"⟩])
    | _, _, _, _ => .error [⟨.info, "TTG computed"⟩]

/-- `MetricsEngine._on_bay_entry`: store the event keyed by
`(site, track)`, overwriting any previous entry for the key. -/
def onBayEntry (eng : MetricsEngine) (e : RawEvent) :
    Except MetricsEngine MetricsEngine :=
  match e.site_id with
  | none => .error eng
  | some site =>
  match e.track_id with
  | none => .error eng
  | some track =>
    .ok { eng with bay_entries :=
      fun s t => if s = site ∧ t = track then some e
                 else eng.bay_entries s t }

/-- `MetricsEngine._on_bay_exit`.  The stored entry is looked up before
any timestamp is read; with no entry the function warns and returns no
metric.  With an entry, both timestamps are read, the entry is deleted,
`logger.info` fires, and only then is the metric built (so a missing
`event_id`/`tenant_id`/`bay_id` raises with the deletion persisted). -/
def onBayExit (eng : MetricsEngine) (e : RawEvent) :
    Except (MetricsEngine × List LogEntry)
      (MetricsEngine × Option MetricValue × List LogEntry) :=
  match e.site_id with
  | none => .error (eng, [])
  | some site =>
  match e.track_id with
  | none => .error (eng, [])
  | some track =>
  match eng.bay_entries site track with
  | none => .ok (eng, none, [⟨.warning, "No bay entry found for track"⟩])
  | some entry =>
  match entry.timestamp with
  | none => .error (eng, [])
  | some entry_time =>
  match e.timestamp with
  | none => .error (eng, [])
  | some exit_time =>
    let eng1 : MetricsEngine :=
      { eng with bay_entries :=
          fun s t => if s = site ∧ t = track then none
                     else eng.bay_entries s t }
    match e.event_id, e.tenant_id, e.bay_id with
    | some eid, some tid, some bay =>
      .ok (eng1, some
        { metric_id := eid, tenant_id := tid, site_id := site,
          metric_name := .rack_time, window_start := exit_time,
          window_size := .one_minute, value := exit_time - entry_time,
          unit := "seconds", dimensions := [("bay_id", some bay)],
          is_estimated := true },
        [⟨.info, "Rack time computed"⟩])
    | _, _, _ => .error (eng1, [⟨.info, "Rack time computed"⟩])

/-- `MetricsEngine._on_lobby_enter`: increment the site counter. -/
def onLobbyEnter (eng : MetricsEngine) (e : RawEvent) :
    Except MetricsEngine MetricsEngine :=
  match e.site_id with
  | none => .error eng
  | some site =>
    .ok { eng with lobby_counts :=
      fun s => if s = site then eng.lobby_counts site + 1
               else eng.lobby_counts s }

/-- `MetricsEngine._on_lobby_exit`: decrement floored at zero
(`max(0, count - 1)`). -/
def onLobbyExit (eng : MetricsEngine) (e : RawEvent) :
    Except MetricsEngine MetricsEngine :=
  match e.site_id with
  | none => .error eng
  | some site =>
    .ok { eng with lobby_counts :=
      fun s => if s = site then max 0 (eng.lobby_counts site - 1)
               else eng.lobby_counts s }

/-- `MetricsEngine._get_lobby_occupancy`: read-only; builds the
point-sample metric from the current counter.  The keyword arguments of
the `MetricValue` constructor are evaluated in order `event_id`,
`tenant_id`, (site already read), `timestamp`; `door_id` uses
`event.get` and never raises. -/
def getLobbyOccupancy (eng : MetricsEngine) (e : RawEvent) :
    Except Unit MetricValue :=
  match e.site_id with
  | none => .error ()
  | some site =>
  match e.event_id with
  | none => .error ()
  | some eid =>
  match e.tenant_id with
  | none => .error ()
  | some tid =>
  match e.timestamp with
  | none => .error ()
  | some ts =>
    .ok { metric_id := eid, tenant_id := tid, site_id := site,
          metric_name := .lobby_occupancy, window_start := ts,
          window_size := .one_minute,
          value := (eng.lobby_counts site : ℚ), unit := "persons",
          dimensions := [("door_id", e.door_id)] }

/-- Result of one `process_event` call: the engine state afterwards, the
returned metrics list, and the log lines emitted during the call. -/
structure PEOut where
  engine : MetricsEngine
  metrics : List MetricValue
  logs : List LogEntry

/-- The `logger.error` line of `process_event`'s `except` clause. -/
def procErrLog : LogEntry := ⟨.error, "Error processing event for metrics"⟩

/-- `MetricsEngine.process_event`: dispatch on `event.get("event_type")`;
any exception inside the `try` is caught and logged at error level, the
metrics appended so far (always none, since each branch appends as its
last action) are returned, and mutations made before the raise persist. -/
def processEvent (eng : MetricsEngine) (e : RawEvent) : PEOut :=
  match e.event_type with
  | some .vehicle_arrival =>
    match onVehicleArrival eng e with
    | .ok eng1 => ⟨eng1, [], []⟩
    | .error eng1 => ⟨eng1, [], [procErrLog]⟩
  | some .greet_started =>
    match onGreetStarted eng e with
    | .ok (some m, logs) => ⟨eng, [m], logs⟩
    | .ok (none, logs) => ⟨eng, [], logs⟩
    | .error logs => ⟨eng, [], logs ++ [procErrLog]⟩
  | some .bay_entry =>
    match onBayEntry eng e with
    | .ok eng1 => ⟨eng1, [], []⟩
    | .error eng1 => ⟨eng1, [], [procErrLog]⟩
  | some .bay_exit =>
    match onBayExit eng e with
    | .ok (eng1, some m, logs) => ⟨eng1, [m], logs⟩
    | .ok (eng1, none, logs) => ⟨eng1, [], logs⟩
    | .error (eng1, logs) => ⟨eng1, [], logs ++ [procErrLog]⟩
  | some .lobby_enter =>
    match onLobbyEnter eng e with
    | .error eng1 => ⟨eng1, [], [procErrLog]⟩
    | .ok eng1 =>
      match getLobbyOccupancy eng1 e with
      | .ok m => ⟨eng1, [m], []⟩
      | .error _ => ⟨eng1, [], [procErrLog]⟩
  | some .lobby_exit =>
    match onLobbyExit eng e with
    | .error eng1 => ⟨eng1, [], [procErrLog]⟩
    | .ok eng1 =>
      match getLobbyOccupancy eng1 e with
      | .ok m => ⟨eng1, [m], []⟩
      | .error _ => ⟨eng1, [], [procErrLog]⟩
  | _ => ⟨eng, [], []⟩

/-! ## Zone / line engine (`edge/analytics/zone_line_engine.py`) -/

/-- `shared/models/core.py`: `ZoneType`. -/
inductive ZoneType
  | greet_zone | bay | lobby | waiting_area | perimeter | parking | custom
  deriving DecidableEq, Repr

/-- `shared/models/core.py`: `LineType`. -/
inductive LineType
  | entry | exit | bay_entry | bay_exit | door | perimeter | custom
  deriving DecidableEq, Repr

/-- The parts of a `Zone` configuration record the engine reads. -/
structure Zone where
  zone_id : Nat
  zone_type : ZoneType
  dwell_threshold_seconds : Option ℚ := none
  deriving DecidableEq, Repr

/-- The parts of a `Line` configuration record the engine reads. -/
structure Line where
  line_id : Nat
  line_type : LineType
  deriving DecidableEq, Repr

/-- `zone_line_engine.py` `TrackedObject`.  `zone_entry_times` is a dict
`zone_id -> entry time`, modelled as an insertion-ordered association
list with unique keys; likewise the registry below. -/
structure TrackedObject where
  track_id : String
  object_class : ObjectClass
  first_seen : Time
  last_seen : Time
  zone_entry_times : List (Nat × Time)
  lines_crossed : List Nat
  deriving DecidableEq, Repr

/-- First-match association-list lookup (`d.get(k)` / `k in d`). -/
def alookup {α β : Type} [DecidableEq α] : List (α × β) → α → Option β
  | [], _ => none
  | (k, v) :: rest, a => if k = a then some v else alookup rest a

/-- Dict assignment `d[k] = v`: update the existing key in place, or
append the new key at the end (Python insertion order). -/
def aset {α β : Type} [DecidableEq α] : List (α × β) → α → β → List (α × β)
  | [], a, b => [(a, b)]
  | (k, v) :: rest, a, b =>
    if k = a then (k, b) :: rest else (k, v) :: aset rest a b

/-- Dict deletion `d.pop(k, None)`: drop the first entry with the key. -/
def aremove {α β : Type} [DecidableEq α] : List (α × β) → α → List (α × β)
  | [], _ => []
  | (k, v) :: rest, a => if k = a then rest else (k, v) :: aremove rest a

/-- One typed domain event emitted by the zone/line engine
(`shared/schemas/events.py` event classes; only the payload fields the
engine fills are modelled — `event_id`/`timestamp` defaults are external
randomness/clock and are not part of the engine's computation). -/
inductive DomainEvent
  | vehicleArrival (tenant site camera : Nat) (track : String)
      (line : Nat) (confidence : ℚ)
  | vehicleExit (tenant site camera : Nat) (track : String)
      (line : Nat) (confidence : ℚ)
  | bayEntryEv (tenant site camera : Nat) (track : String)
      (bay : Nat) (confidence : ℚ)
  | bayExitEv (tenant site camera : Nat) (track : String)
      (bay : Nat) (confidence : ℚ)
  | lobbyEnterEv (tenant site camera : Nat) (track : String)
      (door : Nat) (confidence : ℚ)
  | lobbyExitEv (tenant site camera : Nat) (track : String)
      (door : Nat) (confidence : ℚ)
  | lineCrossingEv (tenant site camera : Nat) (track : String)
      (cls : ObjectClass) (line : Nat) (direction : String) (confidence : ℚ)
  | zoneDwell (tenant site camera : Nat) (track : String)
      (cls : ObjectClass) (zone : Nat) (dwell_seconds : ℚ) (confidence : ℚ)
  | greetStarted (tenant site camera : Nat) (vehicle_track person_track : String)
      (zone : Nat) (proximity_seconds : ℚ) (confidence : ℚ)
  deriving DecidableEq, Repr

/-- `ZoneLineEngine` state. -/
structure ZoneLineEngine where
  tenant_id : Nat
  site_id : Nat
  camera_id : Nat
  zones : List (Nat × Zone)
  lines : List (Nat × Line)
  tracked_objects : List (String × TrackedObject)
  default_dwell_threshold : ℚ
  deriving DecidableEq, Repr

/-- `ZoneLineEngine.__init__`: empty configuration and registry,
`default_dwell_threshold = 2.0`. -/
def ZoneLineEngine.init (tenant site camera : Nat) : ZoneLineEngine :=
  ⟨tenant, site, camera, [], [], [], 2⟩

/-- `ZoneLineEngine.load_zones` (`{zone.zone_id: zone for ...}`;
zone ids are assumed distinct, as produced by the configuration). -/
def load_zones (eng : ZoneLineEngine) (zs : List Zone) : ZoneLineEngine :=
  { eng with zones := zs.map (fun z => (z.zone_id, z)) }

/-- `ZoneLineEngine.load_lines`. -/
def load_lines (eng : ZoneLineEngine) (ls : List Line) : ZoneLineEngine :=
  { eng with lines := ls.map (fun l => (l.line_id, l)) }

/-- `ZoneLineEngine.update_tracking`: create the entry if absent
(`first_seen = last_seen = now`, empty zone map and line list),
otherwise update `last_seen` only. -/
def update_tracking (eng : ZoneLineEngine) (now : Time) (track : String)
    (cls : ObjectClass) : ZoneLineEngine :=
  match alookup eng.tracked_objects track with
  | none =>
    { eng with tracked_objects :=
        eng.tracked_objects ++ [(track, ⟨track, cls, now, now, [], []⟩)] }
  | some obj =>
    let touched : TrackedObject := { obj with last_seen := now }
    { eng with tracked_objects := aset eng.tracked_objects track touched }

/-- `ZoneLineEngine.on_line_crossing`: touch the registry first, then
look up the line; an unknown line yields no event; otherwise dispatch on
the line's semantic type (a `door` crossing by a non-person falls
through to the generic `LineCrossingEvent`, as does `perimeter`/`custom`). -/
def on_line_crossing (eng : ZoneLineEngine) (now : Time) (track : String)
    (line_id : Nat) (direction : String) (confidence : ℚ)
    (cls : ObjectClass) : ZoneLineEngine × Option DomainEvent :=
  let eng1 := update_tracking eng now track cls
  match alookup eng1.lines line_id with
  | none => (eng1, none)
  | some line =>
    match line.line_type with
    | .entry => (eng1, some (.vehicleArrival eng1.tenant_id eng1.site_id
        eng1.camera_id track line_id confidence))
    | .exit => (eng1, some (.vehicleExit eng1.tenant_id eng1.site_id
        eng1.camera_id track line_id confidence))
    | .bay_entry => (eng1, some (.bayEntryEv eng1.tenant_id eng1.site_id
        eng1.camera_id track line_id confidence))
    | .bay_exit => (eng1, some (.bayExitEv eng1.tenant_id eng1.site_id
        eng1.camera_id track line_id confidence))
    | .door =>
      if cls = ObjectClass.person then
        if direction = "forward" then
          (eng1, some (.lobbyEnterEv eng1.tenant_id eng1.site_id
            eng1.camera_id track line_id confidence))
        else
          (eng1, some (.lobbyExitEv eng1.tenant_id eng1.site_id
            eng1.camera_id track line_id confidence))
      else (eng1, some (.lineCrossingEv eng1.tenant_id eng1.site_id
        eng1.camera_id track cls line_id direction confidence))
    | _ => (eng1, some (.lineCrossingEv eng1.tenant_id eng1.site_id
        eng1.camera_id track cls line_id direction confidence))

/-- `ZoneLineEngine.on_zone_entry`: touch the registry, then record the
entry time only if the zone is not already present for this track (the
second `utcnow()` call of the source is identified with `now`). -/
def on_zone_entry (eng : ZoneLineEngine) (now : Time) (track : String)
    (zone_id : Nat) (cls : ObjectClass) : ZoneLineEngine :=
  let eng1 := update_tracking eng now track cls
  match alookup eng1.tracked_objects track with
  | none => eng1
  | some obj =>
    match alookup obj.zone_entry_times zone_id with
    | some _ => eng1
    | none =>
      let entered : TrackedObject :=
        { obj with zone_entry_times := aset obj.zone_entry_times zone_id now }
      { eng1 with tracked_objects := aset eng1.tracked_objects track entered }

/-- `ZoneLineEngine.on_zone_exit`: drop the zone-entry record, no-op if
the track or zone is unknown. -/
def on_zone_exit (eng : ZoneLineEngine) (track : String) (zone_id : Nat) :
    ZoneLineEngine :=
  match alookup eng.tracked_objects track with
  | none => eng
  | some obj =>
    let exited : TrackedObject :=
      { obj with zone_entry_times := aremove obj.zone_entry_times zone_id }
    { eng with tracked_objects := aset eng.tracked_objects track exited }

/-- `zone.dwell_threshold_seconds or self.default_dwell_threshold`:
Python `or` falls back on `None` and on the falsy value `0.0`. -/
def effective_threshold (eng : ZoneLineEngine) (zone : Zone) : ℚ :=
  match zone.dwell_threshold_seconds with
  | none => eng.default_dwell_threshold
  | some t => if t = 0 then eng.default_dwell_threshold else t

/-- Inner loop of `ZoneLineEngine.check_dwell_events` for one track:
walk its `zone_entry_times`; a zone missing from the configuration is
skipped; when `now - entry_time` is at least the effective threshold a
`ZoneDwellEvent` (confidence 0.9) is emitted and the entry time is reset
to `now`.  Returns the updated zone map and the events in order. -/
def dwell_scan_zones (eng : ZoneLineEngine) (now : Time) (track : String)
    (cls : ObjectClass) :
    List (Nat × Time) → List (Nat × Time) × List DomainEvent
  | [] => ([], [])
  | (zid, entry_time) :: rest =>
    let step := dwell_scan_zones eng now track cls rest
    match alookup eng.zones zid with
    | none => ((zid, entry_time) :: step.1, step.2)
    | some zone =>
      let dwell_seconds := now - entry_time
      if effective_threshold eng zone ≤ dwell_seconds then
        ((zid, now) :: step.1,
         DomainEvent.zoneDwell eng.tenant_id eng.site_id eng.camera_id
           track cls zid dwell_seconds (9/10) :: step.2)
      else ((zid, entry_time) :: step.1, step.2)

/-- `ZoneLineEngine.check_dwell_events`: scan every tracked object and
every zone it occupies; emission resets that entry time to `now`. -/
def check_dwell_events (eng : ZoneLineEngine) (now : Time) :
    ZoneLineEngine × List DomainEvent :=
  let step := eng.tracked_objects.map (fun p =>
    let r := dwell_scan_zones eng now p.1 p.2.object_class p.2.zone_entry_times
    ((p.1, { p.2 with zone_entry_times := r.1 }), r.2))
  ({ eng with tracked_objects := step.map Prod.fst },
   (step.map Prod.snd).flatten)

/-- Body of `ZoneLineEngine.check_greet_proximity` for one greet zone:
partition the residents into vehicles and persons (registry order), and
for every (vehicle, person) pair emit a `GreetStartedEvent`
(confidence 0.85) when `min(vehicle_dwell, person_dwell) ≥ 1.0`.
The source's repeated `utcnow()` calls are identified with `now`. -/
def greet_pairs_for_zone (eng : ZoneLineEngine) (now : Time) (zone : Zone) :
    List DomainEvent :=
  let residents := eng.tracked_objects.filter
    (fun p => (alookup p.2.zone_entry_times zone.zone_id).isSome)
  let vehicles_in_zone := residents.filter
    (fun p => p.2.object_class = ObjectClass.vehicle)
  let persons_in_zone := residents.filter
    (fun p => p.2.object_class = ObjectClass.person)
  vehicles_in_zone.flatMap (fun v =>
    persons_in_zone.filterMap (fun p =>
      match alookup v.2.zone_entry_times zone.zone_id,
            alookup p.2.zone_entry_times zone.zone_id with
      | some vt, some pt =>
        let min_dwell := min (now - vt) (now - pt)
        if 1 ≤ min_dwell then
          some (DomainEvent.greetStarted eng.tenant_id eng.site_id
            eng.camera_id v.2.track_id p.2.track_id zone.zone_id
            min_dwell (17/20))
        else none
      | _, _ => none))

/-- `ZoneLineEngine.check_greet_proximity`: full cross product per greet
zone, concatenated over the greet zones in configuration order. -/
def check_greet_proximity (eng : ZoneLineEngine) (now : Time) :
    List DomainEvent :=
  ((eng.zones.map Prod.snd).filter
      (fun z => z.zone_type = ZoneType.greet_zone)).flatMap
    (greet_pairs_for_zone eng now)

/-! ## Specification-side definitions

These restate, in closed form, what the spec says the loops compute;
the theorems below relate them to the source translations above. -/

/-- The spec's TTG candidate set: deltas `greet_time - arrival_time` of
buffered arrivals with the greet's vehicle track whose delta is strictly
positive and strictly inside the match window. -/
def ttgDeltas (arrivals : List RawEvent) (vtrack : String) (gt : Time) :
    List Time :=
  arrivals.filterMap (fun a =>
    match a.track_id, a.timestamp with
    | some tid, some ts =>
      if tid = vtrack ∧ 0 < gt - ts ∧ gt - ts < ttg_max_match_window then
        some (gt - ts)
      else none
    | _, _ => none)

/-- The accumulator discipline of the `_on_greet_started` loop: keep the
first-seen minimum of the deltas. -/
def ttgFoldMin (acc : Option Time) (ds : List Time) : Option Time :=
  ds.foldl (fun a d =>
    match a with
    | none => some d
    | some m => if d < m then some d else some m) acc

/-- Whether the dwell scan fires for an entry `(zid, t0)` at `now`:
the zone is configured and the effective threshold is reached. -/
def dwell_fires (eng : ZoneLineEngine) (now : Time) (zid : Nat)
    (t0 : Time) : Bool :=
  match alookup eng.zones zid with
  | none => false
  | some zone => decide (effective_threshold eng zone ≤ now - t0)

/-- Drive the periodic dwell scanner over a list of tick instants,
accumulating the emitted events (the scanner runs on a fixed cadence). -/
def dwellScanFold (eng : ZoneLineEngine) (ticks : List Time) :
    ZoneLineEngine × List DomainEvent :=
  ticks.foldl (fun acc t =>
    let r := check_dwell_events acc.1 t
    (r.1, acc.2 ++ r.2)) (eng, [])

/-! ## Concrete fixtures for witnesses and counterexamples -/

/-- A well-formed buffered vehicle-arrival event. -/
def wArrival (tid : String) (ts : Time) : RawEvent :=
  { event_type := some EventType.vehicle_arrival, event_id := some 1,
    tenant_id := some 1, site_id := some 7, camera_id := some 3,
    timestamp := some ts, track_id := some tid }

/-- A well-formed greet event for vehicle track "A". -/
def wGreet (ts : Time) : RawEvent :=
  { event_type := some EventType.greet_started, event_id := some 2,
    tenant_id := some 1, site_id := some 7, camera_id := some 3,
    timestamp := some ts, vehicle_track_id := some "A", zone_id := some 9 }

/-- Engine whose site-7 buffer holds arrivals for track "A" at t=0 and
t=90 (the spec's TTG nearest-match scenario). -/
def wEngTTG : MetricsEngine :=
  { arrivals_buffer := fun s => if s = 7 then [wArrival "A" 0, wArrival "A" 90] else [],
    bay_entries := fun _ _ => none, lobby_counts := fun _ => 0 }

/-- Engine whose site-7 buffer holds a single arrival for "A" at t=0
(the spec's TTG window-exclusion scenario, greeted at t=400). -/
def wEngTTGLate : MetricsEngine :=
  { arrivals_buffer := fun s => if s = 7 then [wArrival "A" 0] else [],
    bay_entries := fun _ _ => none, lobby_counts := fun _ => 0 }

/-- A well-formed bay-entry event at time `ts`. -/
def wBayEntry (ts : Time) : RawEvent :=
  { event_type := some EventType.bay_entry, event_id := some 4,
    tenant_id := some 1, site_id := some 7, camera_id := some 3,
    timestamp := some ts, track_id := some "B", bay_id := some 11 }

/-- A well-formed bay-exit event at time `ts`. -/
def wBayExit (ts : Time) : RawEvent :=
  { event_type := some EventType.bay_exit, event_id := some 5,
    tenant_id := some 1, site_id := some 7, camera_id := some 3,
    timestamp := some ts, track_id := some "B", bay_id := some 11 }

/-- Engine after two bay entries for track "B" at t=10 and t=20 with no
intervening exit (the spec's rack-time overwrite scenario). -/
def wEngBay : MetricsEngine :=
  (processEvent (processEvent MetricsEngine.init (wBayEntry 10)).engine
    (wBayEntry 20)).engine

/-- A well-formed lobby-enter event. -/
def wLobbyEnter : RawEvent :=
  { event_type := some EventType.lobby_enter, event_id := some 6,
    tenant_id := some 1, site_id := some 7, camera_id := some 3,
    timestamp := some 10, track_id := some "P", door_id := some 13 }

/-- A well-formed lobby-exit event. -/
def wLobbyExit : RawEvent :=
  { event_type := some EventType.lobby_exit, event_id := some 7,
    tenant_id := some 1, site_id := some 7, camera_id := some 3,
    timestamp := some 10, track_id := some "P", door_id := some 13 }

/-- A lobby-enter event with a valid site and ids but no timestamp. -/
def wLobbyEnterNoTs : RawEvent :=
  { event_type := some EventType.lobby_enter, event_id := some 6,
    tenant_id := some 1, site_id := some 7, camera_id := some 3,
    door_id := some 13 }

/-- A malformed event: has a type but no site, timestamp or ids. -/
def wMalformed : RawEvent :=
  { event_type := some EventType.vehicle_arrival }

/-- A vehicle arrival that is well-formed except for a missing
`tenant_id` — a field `_on_vehicle_arrival` never reads. -/
def wArrivalNoTenant : RawEvent :=
  { event_type := some EventType.vehicle_arrival, event_id := some 1,
    site_id := some 7, camera_id := some 3, timestamp := some 5,
    track_id := some "A" }

/-- Zone engine with one bay zone (id 5, threshold 2s) and track "T"
resident since t=0 — the spec's dwell re-arm scenario. -/
def wZoneEng : ZoneLineEngine :=
  on_zone_entry
    (load_zones (ZoneLineEngine.init 1 7 3) [⟨5, ZoneType.bay, some 2⟩])
    0 "T" 5 ObjectClass.vehicle

/-- Zone engine with one greet zone (id 5), vehicles "V1", "V2" and
person "P1" all resident since t=0 — the spec's cross-product scenario. -/
def wGreetEng : ZoneLineEngine :=
  on_zone_entry
    (on_zone_entry
      (on_zone_entry
        (load_zones (ZoneLineEngine.init 1 7 3) [⟨5, ZoneType.greet_zone, none⟩])
        0 "V1" 5 ObjectClass.vehicle)
      0 "V2" 5 ObjectClass.vehicle)
    0 "P1" 5 ObjectClass.person

/-- Zone engine with a single configured entry line (id 1). -/
def wLineEng : ZoneLineEngine :=
  load_lines (ZoneLineEngine.init 1 7 3) [⟨1, LineType.entry⟩]

/-- One unknown-line crossing (line 999 is not configured) applied to an
engine state. -/
def unknownCrossing (eng : ZoneLineEngine) : ZoneLineEngine × Option DomainEvent :=
  on_line_crossing eng 5 "t1" 999 "reverse" (1/2) ObjectClass.vehicle

/-! ## Association-list lemmas -/

section AssocLemmas

variable {α β : Type} [DecidableEq α]

theorem alookup_append (l1 l2 : List (α × β)) (a : α) :
    alookup (l1 ++ l2) a =
      match alookup l1 a with
      | some v => some v
      | none => alookup l2 a := by
  induction l1 with
  | nil => simp [alookup]
  | cons p rest ih =>
    obtain ⟨k, v⟩ := p
    by_cases h : k = a <;> simp [alookup, h, ih]

theorem alookup_aset_self (l : List (α × β)) (a : α) (b : β) :
    alookup (aset l a b) a = some b := by
  induction l with
  | nil => simp [aset, alookup]
  | cons p rest ih =>
    obtain ⟨k, v⟩ := p
    by_cases h : k = a <;> simp [aset, alookup, h, ih]

theorem alookup_aset_ne (l : List (α × β)) (a a' : α) (b : β) (h : a' ≠ a) :
    alookup (aset l a b) a' = alookup l a' := by
  induction l with
  | nil => simp [aset, alookup, Ne.symm h]
  | cons p rest ih =>
    obtain ⟨k, v⟩ := p
    by_cases hk : k = a
    · subst hk
      simp [aset, alookup, Ne.symm h]
    · by_cases hk' : k = a'
      · subst hk'
        simp [aset, alookup, hk]
      · simp [aset, alookup, hk, hk', ih]

theorem alookup_eq_none_iff (l : List (α × β)) (a : α) :
    alookup l a = none ↔ a ∉ l.map Prod.fst := by
  induction l with
  | nil => simp [alookup]
  | cons p rest ih =>
    obtain ⟨k, v⟩ := p
    by_cases h : k = a
    · subst h
      simp [alookup]
    · simp [alookup, h, ih, Ne.symm h]

theorem mem_keys_of_alookup (l : List (α × β)) (a : α) (b : β)
    (h : alookup l a = some b) : a ∈ l.map Prod.fst := by
  by_contra hmem
  rw [← alookup_eq_none_iff] at hmem
  rw [hmem] at h
  exact Option.noConfusion h

theorem keys_aset_of_mem (l : List (α × β)) (a : α) (b : β)
    (h : a ∈ l.map Prod.fst) :
    (aset l a b).map Prod.fst = l.map Prod.fst := by
  induction l with
  | nil => simp at h
  | cons p rest ih =>
    obtain ⟨k, v⟩ := p
    by_cases hk : k = a
    · simp [aset, hk]
    · simp only [List.map_cons, List.mem_cons] at h
      rcases h with h | h
      · exact absurd h.symm hk
      · simp [aset, hk, ih h]

theorem keys_aset_of_not_mem (l : List (α × β)) (a : α) (b : β)
    (h : a ∉ l.map Prod.fst) :
    (aset l a b).map Prod.fst = l.map Prod.fst ++ [a] := by
  induction l with
  | nil => simp [aset]
  | cons p rest ih =>
    obtain ⟨k, v⟩ := p
    simp only [List.map_cons, List.mem_cons] at h
    push_neg at h
    have hk : k ≠ a := fun hh => h.1 hh.symm
    simp [aset, hk, ih h.2]

theorem alookup_of_mem_nodup (l : List (α × β)) (a : α) (b : β)
    (hnd : (l.map Prod.fst).Nodup) (hmem : (a, b) ∈ l) :
    alookup l a = some b := by
  induction l with
  | nil => simp at hmem
  | cons p rest ih =>
    obtain ⟨k, v⟩ := p
    simp only [List.map_cons, List.nodup_cons] at hnd
    rcases List.mem_cons.mp hmem with h | h
    · obtain ⟨ha, hb⟩ := Prod.ext_iff.mp h
      subst ha
      subst hb
      simp [alookup]
    · have hka : k ≠ a := by
        intro hk
        exact hnd.1 (hk ▸ (List.mem_map.mpr ⟨(a, b), h, rfl⟩))
      simp [alookup, hka, ih hnd.2 h]

theorem mem_of_alookup (l : List (α × β)) (a : α) (b : β)
    (h : alookup l a = some b) : (a, b) ∈ l := by
  induction l with
  | nil => simp [alookup] at h
  | cons p rest ih =>
    obtain ⟨k, v⟩ := p
    by_cases hk : k = a
    · subst hk
      simp [alookup] at h
      simp [h]
    · simp [alookup, hk] at h
      exact List.mem_cons_of_mem _ (ih h)

theorem alookup_map_pair {γ : Type} (g : α × β → γ) (l : List (α × β)) (a : α) :
    alookup (l.map (fun p => (p.1, g p))) a =
      match alookup l a with
      | some v => some (g (a, v))
      | none => none := by
  induction l with
  | nil => simp [alookup]
  | cons p rest ih =>
    obtain ⟨k, v⟩ := p
    by_cases hk : k = a
    · subst hk
      simp [alookup]
    · simp [alookup, hk, ih]

end AssocLemmas

/-! ## `update_tracking` lemmas -/

theorem update_tracking_config (eng : ZoneLineEngine) (now : Time)
    (track : String) (cls : ObjectClass) :
    (update_tracking eng now track cls).zones = eng.zones ∧
    (update_tracking eng now track cls).lines = eng.lines ∧
    (update_tracking eng now track cls).tenant_id = eng.tenant_id ∧
    (update_tracking eng now track cls).site_id = eng.site_id ∧
    (update_tracking eng now track cls).camera_id = eng.camera_id ∧
    (update_tracking eng now track cls).default_dwell_threshold =
      eng.default_dwell_threshold := by
  unfold update_tracking
  cases alookup eng.tracked_objects track <;> simp

theorem update_tracking_lookup_self (eng : ZoneLineEngine) (now : Time)
    (track : String) (cls : ObjectClass) :
    alookup (update_tracking eng now track cls).tracked_objects track =
      some (match alookup eng.tracked_objects track with
            | none => ⟨track, cls, now, now, [], []⟩
            | some o => { o with last_seen := now }) := by
  unfold update_tracking
  cases h : alookup eng.tracked_objects track with
  | none => simp [alookup_append, h, alookup]
  | some o => simp [alookup_aset_self]

theorem update_tracking_lookup_other (eng : ZoneLineEngine) (now : Time)
    (track : String) (cls : ObjectClass) (t' : String) (h : t' ≠ track) :
    alookup (update_tracking eng now track cls).tracked_objects t' =
      alookup eng.tracked_objects t' := by
  unfold update_tracking
  cases hl : alookup eng.tracked_objects track with
  | none =>
    simp only [alookup_append]
    cases h2 : alookup eng.tracked_objects t' <;> simp [alookup, Ne.symm h]
  | some o => simp [alookup_aset_ne _ _ _ _ h]

/-- Where `on_zone_entry` leaves the track's `zone_entry_times`: the
track is always present afterwards; a fresh track gets the single entry
`(zid, now)`, an existing track gains `(zid, now)` only if the zone was
absent, and keeps its map verbatim otherwise. -/
theorem on_zone_entry_lookup (eng : ZoneLineEngine) (now : Time)
    (track : String) (zid : Nat) (cls : ObjectClass) :
    ∃ obj', alookup (on_zone_entry eng now track zid cls).tracked_objects track
        = some obj' ∧
      (alookup eng.tracked_objects track = none →
        obj'.zone_entry_times = [(zid, now)]) ∧
      (∀ o, alookup eng.tracked_objects track = some o →
        alookup o.zone_entry_times zid = none →
        obj'.zone_entry_times = aset o.zone_entry_times zid now) ∧
      (∀ o t, alookup eng.tracked_objects track = some o →
        alookup o.zone_entry_times zid = some t →
        obj'.zone_entry_times = o.zone_entry_times) := by
  cases h0 : alookup eng.tracked_objects track with
  | none =>
    simp only [on_zone_entry, update_tracking_lookup_self, h0, alookup]
    refine ⟨_, alookup_aset_self _ _ _, ?_, ?_, ?_⟩
    · intro _
      simp [aset]
    · intro o ho
      exact Option.noConfusion ho
    · intro o t ho
      exact Option.noConfusion ho
  | some o =>
    cases h1 : alookup o.zone_entry_times zid with
    | none =>
      simp only [on_zone_entry, update_tracking_lookup_self, h0, h1]
      refine ⟨_, alookup_aset_self _ _ _, ?_, ?_, ?_⟩
      · intro h
        exact Option.noConfusion h
      · intro o' ho' _
        have ho2 : o = o' := by injection ho'
        subst ho2
        rfl
      · intro o' t ho' ht'
        have ho2 : o = o' := by injection ho'
        subst ho2
        rw [h1] at ht'
        exact Option.noConfusion ht'
    | some t =>
      simp only [on_zone_entry, update_tracking_lookup_self, h0, h1]
      refine ⟨_, rfl, ?_, ?_, ?_⟩
      · intro h
        exact Option.noConfusion h
      · intro o' ho' ht'
        have ho2 : o = o' := by injection ho'
        subst ho2
        rw [h1] at ht'
        exact Option.noConfusion ht'
      · intro o' t' ho' _
        have ho2 : o = o' := by injection ho'
        subst ho2
        rfl

/-- C8: calling `enter_zone` (`on_zone_entry`) a second time for the
same (track, zone) pair before any exit is a no-op: the track's
`zone_entry_times` is identical after the second call, and it holds
exactly one entry for that zone. -/
theorem zone_entry_idempotent (eng : ZoneLineEngine) (n1 n2 : Time)
    (track : String) (zid : Nat) (cls : ObjectClass)
    (hznd : ∀ o, alookup eng.tracked_objects track = some o →
      (o.zone_entry_times.map Prod.fst).Nodup) :
    ∃ obj1 obj2,
      alookup (on_zone_entry eng n1 track zid cls).tracked_objects track
        = some obj1 ∧
      alookup (on_zone_entry (on_zone_entry eng n1 track zid cls)
          n2 track zid cls).tracked_objects track = some obj2 ∧
      obj2.zone_entry_times = obj1.zone_entry_times ∧
      (obj1.zone_entry_times.map Prod.fst).count zid = 1 := by
  obtain ⟨obj1, hobj1, hA1, hB1, hC1⟩ := on_zone_entry_lookup eng n1 track zid cls
  obtain ⟨obj2, hobj2, hA2, hB2, hC2⟩ :=
    on_zone_entry_lookup (on_zone_entry eng n1 track zid cls) n2 track zid cls
  have hmain : (∃ t, alookup obj1.zone_entry_times zid = some t) ∧
      (obj1.zone_entry_times.map Prod.fst).count zid = 1 := by
    cases h0 : alookup eng.tracked_objects track with
    | none =>
      rw [hA1 h0]
      exact ⟨⟨n1, by simp [alookup]⟩, by simp⟩
    | some o =>
      cases h1 : alookup o.zone_entry_times zid with
      | none =>
        rw [hB1 o h0 h1]
        have hnm : zid ∉ o.zone_entry_times.map Prod.fst :=
          (alookup_eq_none_iff _ _).mp h1
        refine ⟨⟨n1, alookup_aset_self _ _ _⟩, ?_⟩
        rw [keys_aset_of_not_mem _ _ _ hnm]
        simp [List.count_append, List.count_eq_zero_of_not_mem hnm]
      | some t0 =>
        rw [hC1 o t0 h0 h1]
        have hm : zid ∈ o.zone_entry_times.map Prod.fst :=
          mem_keys_of_alookup _ _ _ h1
        exact ⟨⟨t0, h1⟩, List.count_eq_one_of_mem (hznd o h0) hm⟩
  obtain ⟨⟨t, ht⟩, hcount⟩ := hmain
  exact ⟨obj1, obj2, hobj1, hobj2, hC2 obj1 t hobj1 ht, hcount⟩

/-- C8 witness: a concrete double entry on a fresh engine. -/
theorem zone_entry_idempotent_witness :
    ∃ obj1 obj2,
      alookup (on_zone_entry (ZoneLineEngine.init 1 7 3) 4 "T" 5
          ObjectClass.vehicle).tracked_objects "T" = some obj1 ∧
      alookup (on_zone_entry (on_zone_entry (ZoneLineEngine.init 1 7 3) 4 "T" 5
          ObjectClass.vehicle) 6 "T" 5 ObjectClass.vehicle).tracked_objects "T"
        = some obj2 ∧
      obj2.zone_entry_times = obj1.zone_entry_times ∧
      (obj1.zone_entry_times.map Prod.fst).count 5 = 1 :=
  zone_entry_idempotent (ZoneLineEngine.init 1 7 3) 4 6 "T" 5
    ObjectClass.vehicle (by intro o ho; cases ho)

/-- C9: an unknown-line crossing returns no event yet has already
touched the registry: the result state is exactly
`update_tracking eng now track cls`, which adds a fresh `TrackedObject`
for an unseen track or refreshes `last_seen` of a seen one, and leaves
zones, lines, and every other track's entry unchanged. -/
theorem line_crossing_unknown_frame (eng : ZoneLineEngine) (now : Time)
    (track : String) (lid : Nat) (dir : String) (conf : ℚ)
    (cls : ObjectClass) (hline : alookup eng.lines lid = none) :
    (on_line_crossing eng now track lid dir conf cls).2 = none ∧
    (on_line_crossing eng now track lid dir conf cls).1 =
      update_tracking eng now track cls ∧
    (update_tracking eng now track cls).zones = eng.zones ∧
    (update_tracking eng now track cls).lines = eng.lines ∧
    (alookup eng.tracked_objects track = none →
      alookup (update_tracking eng now track cls).tracked_objects track =
        some ⟨track, cls, now, now, [], []⟩) ∧
    (∀ o, alookup eng.tracked_objects track = some o →
      alookup (update_tracking eng now track cls).tracked_objects track =
        some ({ o with last_seen := now })) ∧
    ∀ t', t' ≠ track →
      alookup (update_tracking eng now track cls).tracked_objects t' =
        alookup eng.tracked_objects t' := by
  obtain ⟨hz, hl, -, -, -, -⟩ := update_tracking_config eng now track cls
  have hm : alookup (update_tracking eng now track cls).lines lid = none := by
    rw [hl]; exact hline
  refine ⟨?_, ?_, hz, hl, ?_, ?_, ?_⟩
  · simp only [on_line_crossing, hm]
  · simp only [on_line_crossing, hm]
  · intro h0
    simp only [update_tracking_lookup_self, h0]
  · intro o h0
    simp only [update_tracking_lookup_self, h0]
  · intro t' ht'
    exact update_tracking_lookup_other eng now track cls t' ht'

/-- C9 witness: unknown line 999 on the concrete engine `wLineEng`. -/
theorem line_crossing_unknown_frame_witness :
    (on_line_crossing wLineEng 5 "t1" 999 "reverse" (1/2)
        ObjectClass.vehicle).2 = none ∧
    (on_line_crossing wLineEng 5 "t1" 999 "reverse" (1/2)
        ObjectClass.vehicle).1 =
      update_tracking wLineEng 5 "t1" ObjectClass.vehicle ∧
    (update_tracking wLineEng 5 "t1" ObjectClass.vehicle).zones =
      wLineEng.zones ∧
    (update_tracking wLineEng 5 "t1" ObjectClass.vehicle).lines =
      wLineEng.lines ∧
    (alookup wLineEng.tracked_objects "t1" = none →
      alookup (update_tracking wLineEng 5 "t1"
          ObjectClass.vehicle).tracked_objects "t1" =
        some ⟨"t1", ObjectClass.vehicle, 5, 5, [], []⟩) ∧
    (∀ o, alookup wLineEng.tracked_objects "t1" = some o →
      alookup (update_tracking wLineEng 5 "t1"
          ObjectClass.vehicle).tracked_objects "t1" =
        some ({ o with last_seen := 5 })) ∧
    ∀ t', t' ≠ "t1" →
      alookup (update_tracking wLineEng 5 "t1"
          ObjectClass.vehicle).tracked_objects t' =
        alookup wLineEng.tracked_objects t' :=
  line_crossing_unknown_frame wLineEng 5 "t1" 999 "reverse" (1/2)
    ObjectClass.vehicle (by decide)

/-- C7 counterexample: the claim says an unknown-line primitive is
"recorded as a counted classification miss".  It is not: the engine
state (all fields of the `ZoneLineEngine` class) after an unknown-line
crossing equals the bare registry touch, and replaying the very same
miss leaves the state bit-for-bit identical — no occurrence count of
misses exists anywhere in the state. -/
theorem line_miss_not_counted :
    (unknownCrossing wLineEng).2 = none ∧
    (unknownCrossing wLineEng).1 =
      update_tracking wLineEng 5 "t1" ObjectClass.vehicle ∧
    (unknownCrossing (unknownCrossing wLineEng).1).1 =
      (unknownCrossing wLineEng).1 := by
  refine ⟨rfl, by decide, by decide⟩

/-- C7 (amended): an unknown line identifier produces no domain event
and does not raise — `on_line_crossing` returns `(touched state, none)`
where the only state change is the registry touch, so processing of
subsequent primitives is unaffected; no miss counter is kept. -/
theorem line_miss_uncounted_nonfatal (eng : ZoneLineEngine) (now : Time)
    (track : String) (lid : Nat) (dir : String) (conf : ℚ)
    (cls : ObjectClass) (hline : alookup eng.lines lid = none) :
    (on_line_crossing eng now track lid dir conf cls).2 = none ∧
    (on_line_crossing eng now track lid dir conf cls).1 =
      update_tracking eng now track cls := by
  have hl : (update_tracking eng now track cls).lines = eng.lines :=
    (update_tracking_config eng now track cls).2.1
  have hm : alookup (update_tracking eng now track cls).lines lid = none := by
    rw [hl]
    exact hline
  constructor
  · simp only [on_line_crossing, hm]
  · simp only [on_line_crossing, hm]

/-- C7 witness: line 999 is not configured in `wLineEng`. -/
theorem line_miss_uncounted_nonfatal_witness :
    (on_line_crossing wLineEng 11 "t2" 999 "forward" (3/4)
        ObjectClass.person).2 = none ∧
    (on_line_crossing wLineEng 11 "t2" 999 "forward" (3/4)
        ObjectClass.person).1 =
      update_tracking wLineEng 11 "t2" ObjectClass.person :=
  line_miss_uncounted_nonfatal wLineEng 11 "t2" 999 "forward" (3/4)
    ObjectClass.person (by decide)

/-- C6 counterexample: for a malformed event (an arrival with no
`site_id`), `process_event` emits a single log line at *error* severity
(`logger.error` in the `except` clause) — no warning-level line is
logged, contradicting the claim's "skipped with a logged warning". -/
theorem malformed_event_logs_error_level :
    (processEvent MetricsEngine.init wMalformed).logs = [procErrLog] ∧
    procErrLog.level = LogLevel.error ∧
    (∀ l ∈ (processEvent MetricsEngine.init wMalformed).logs,
      l.level ≠ LogLevel.warning) ∧
    (processEvent MetricsEngine.init wMalformed).metrics = [] :=
  ⟨rfl, rfl, by decide, rfl⟩

/-- C6 (amended): an incoming event whose handler encounters a missing
required field is skipped with a logged *error* (the `except` clause's
`logger.error`, never a warning) and no exception reaches the caller;
mutations made before the raise persist and subsequent events process
normally.  "Required" is per handler — a field the handler reads:
`site_id` for all six handled types (with it missing the state is
entirely unchanged); the timestamp for vehicle-arrival, greet and lobby
events (the arrival stays buffered, since the append precedes the
timestamp read); the tenant id for lobby events.  A field the handler
never reads is not required: a vehicle arrival missing only its
`tenant_id` is processed completely normally with no log at all. -/
theorem malformed_event_skipped (eng : MetricsEngine) :
    (∀ (e : RawEvent) (τ : EventType), e.event_type = some τ →
      (τ = EventType.vehicle_arrival ∨ τ = EventType.greet_started ∨
        τ = EventType.bay_entry ∨ τ = EventType.bay_exit ∨
        τ = EventType.lobby_enter ∨ τ = EventType.lobby_exit) →
      e.site_id = none →
      (processEvent eng e).engine = eng ∧
      (processEvent eng e).metrics = [] ∧
      (processEvent eng e).logs = [procErrLog]) ∧
    (∀ (e : RawEvent) (s : Nat),
      e.event_type = some EventType.greet_started →
      e.site_id = some s → e.timestamp = none →
      (processEvent eng e).engine = eng ∧
      (processEvent eng e).metrics = [] ∧
      (processEvent eng e).logs = [procErrLog]) ∧
    (∀ (e : RawEvent) (s : Nat),
      e.event_type = some EventType.vehicle_arrival →
      e.site_id = some s → e.timestamp = none →
      (processEvent eng e).metrics = [] ∧
      (processEvent eng e).logs = [procErrLog] ∧
      (processEvent eng e).engine.arrivals_buffer s =
        eng.arrivals_buffer s ++ [e] ∧
      (∀ s', s' ≠ s → (processEvent eng e).engine.arrivals_buffer s' =
        eng.arrivals_buffer s') ∧
      (processEvent eng e).engine.bay_entries = eng.bay_entries ∧
      (processEvent eng e).engine.lobby_counts = eng.lobby_counts) ∧
    (∀ (e : RawEvent) (s eid tid : Nat),
      (e.event_type = some EventType.lobby_enter ∨
        e.event_type = some EventType.lobby_exit) →
      e.site_id = some s → e.event_id = some eid →
      e.tenant_id = some tid → e.timestamp = none →
      (processEvent eng e).metrics = [] ∧
      (processEvent eng e).logs = [procErrLog]) ∧
    (∀ (e : RawEvent) (s eid : Nat),
      (e.event_type = some EventType.lobby_enter ∨
        e.event_type = some EventType.lobby_exit) →
      e.site_id = some s → e.event_id = some eid → e.tenant_id = none →
      (processEvent eng e).metrics = [] ∧
      (processEvent eng e).logs = [procErrLog]) ∧
    ∀ (e : RawEvent) (s : Nat) (ts : Time),
      e.event_type = some EventType.vehicle_arrival →
      e.site_id = some s → e.timestamp = some ts → e.tenant_id = none →
      ((eng.arrivals_buffer s ++ [e]).all (fun a => a.timestamp.isSome))
        = true →
      (processEvent eng e).metrics = [] ∧
      (processEvent eng e).logs = [] := by
  refine ⟨?_, ?_, ?_, ?_, ?_, ?_⟩
  · intro e τ hτ hhandled hs
    rcases hhandled with h | h | h | h | h | h <;> subst h <;>
      simp [processEvent, hτ, onVehicleArrival, onGreetStarted, onBayEntry,
        onBayExit, onLobbyEnter, onLobbyExit, hs]
  · intro e s hτ hs hts
    simp [processEvent, hτ, onGreetStarted, hs, hts]
  · intro e s hτ hs hts
    refine ⟨?_, ?_, ?_, ?_, ?_, ?_⟩
    · simp [processEvent, hτ, onVehicleArrival, hs, hts]
    · simp [processEvent, hτ, onVehicleArrival, hs, hts]
    · simp [processEvent, hτ, onVehicleArrival, hs, hts]
    · intro s' hs'
      simp [processEvent, hτ, onVehicleArrival, hs, hts, hs']
    · simp [processEvent, hτ, onVehicleArrival, hs, hts]
    · simp [processEvent, hτ, onVehicleArrival, hs, hts]
  · intro e s eid tid hτ hs heid htid hts
    rcases hτ with hτ | hτ <;>
      simp [processEvent, hτ, onLobbyEnter, onLobbyExit, hs,
        getLobbyOccupancy, heid, htid, hts]
  · intro e s eid hτ hs heid htid
    rcases hτ with hτ | hτ <;>
      simp [processEvent, hτ, onLobbyEnter, onLobbyExit, hs,
        getLobbyOccupancy, heid, htid]
  · intro e s ts hτ hs hts htid hall
    simp [processEvent, hτ, onVehicleArrival, hs, hts, hall]

/-- C6 witness: a site-less arrival is dropped with the error log and
the state untouched; a timestamp-less lobby-enter is dropped with the
error log; a vehicle arrival missing only its tenant id is processed
normally with no log. -/
theorem malformed_event_skipped_witness :
    ((processEvent MetricsEngine.init wMalformed).engine =
        MetricsEngine.init ∧
      (processEvent MetricsEngine.init wMalformed).metrics = [] ∧
      (processEvent MetricsEngine.init wMalformed).logs = [procErrLog]) ∧
    ((processEvent MetricsEngine.init wLobbyEnterNoTs).metrics = [] ∧
      (processEvent MetricsEngine.init wLobbyEnterNoTs).logs =
        [procErrLog]) ∧
    (processEvent MetricsEngine.init wArrivalNoTenant).metrics = [] ∧
    (processEvent MetricsEngine.init wArrivalNoTenant).logs = [] :=
  ⟨(malformed_event_skipped MetricsEngine.init).1 wMalformed
      EventType.vehicle_arrival rfl (Or.inl rfl) rfl,
    (malformed_event_skipped MetricsEngine.init).2.2.2.1 wLobbyEnterNoTs
      7 6 1 (Or.inl rfl) rfl rfl rfl rfl,
    (malformed_event_skipped MetricsEngine.init).2.2.2.2.2 wArrivalNoTenant
      7 5 rfl rfl rfl rfl (by decide)⟩

/-- C10: a Lobby-Enter event with a valid site (and ids) but no
timestamp still increments the per-site lobby counter — the increment
happens in `_on_lobby_enter` before `_get_lobby_occupancy` raises on the
missing timestamp — and the call returns no metrics with the caught
error logged: dropping the malformed event is not atomic with respect to
the occupancy counter. -/
theorem lobby_enter_missing_ts_increments (eng : MetricsEngine)
    (e : RawEvent) (s eid tid : Nat)
    (hτ : e.event_type = some EventType.lobby_enter)
    (hs : e.site_id = some s) (heid : e.event_id = some eid)
    (htid : e.tenant_id = some tid) (hts : e.timestamp = none) :
    (processEvent eng e).metrics = [] ∧
    (processEvent eng e).engine.lobby_counts s = eng.lobby_counts s + 1 ∧
    (∀ s', s' ≠ s →
      (processEvent eng e).engine.lobby_counts s' = eng.lobby_counts s') ∧
    (processEvent eng e).logs = [procErrLog] := by
  simp only [processEvent, hτ, onLobbyEnter, hs, getLobbyOccupancy, heid,
    htid, hts]
  refine ⟨?_, ?_, ?_, ?_⟩
  · simp
  · simp
  · intro s' hs'
    simp [hs']
  · simp

/-- C10 witness: the concrete timestamp-less lobby-enter event. -/
theorem lobby_enter_missing_ts_increments_witness :
    (processEvent MetricsEngine.init wLobbyEnterNoTs).metrics = [] ∧
    (processEvent MetricsEngine.init wLobbyEnterNoTs).engine.lobby_counts 7 =
      MetricsEngine.init.lobby_counts 7 + 1 ∧
    (∀ s', s' ≠ 7 →
      (processEvent MetricsEngine.init wLobbyEnterNoTs).engine.lobby_counts s' =
        MetricsEngine.init.lobby_counts s') ∧
    (processEvent MetricsEngine.init wLobbyEnterNoTs).logs = [procErrLog] :=
  lobby_enter_missing_ts_increments MetricsEngine.init wLobbyEnterNoTs
    7 6 1 rfl rfl rfl rfl rfl

/-- C4: bay-entry events for one (site, track) key overwrite the stored
entry (last-entry-wins); a bay-exit with a stored entry removes it and
emits one rack-time metric valued exit − entry timestamp, tagged
`is_estimated = true`; a bay-exit with no stored entry emits nothing and
leaves the stored map untouched (with the unmatched-exit warning). -/
theorem rack_time_spec (eng : MetricsEngine) (s : Nat) (t : String) :
    (∀ (e : RawEvent), e.event_type = some EventType.bay_entry →
      e.site_id = some s → e.track_id = some t →
      (processEvent eng e).engine.bay_entries s t = some e ∧
      (∀ s' t', ¬(s' = s ∧ t' = t) →
        (processEvent eng e).engine.bay_entries s' t' = eng.bay_entries s' t') ∧
      (processEvent eng e).metrics = []) ∧
    (∀ (x entry : RawEvent) (ets xts : Time) (eid tid bay : Nat),
      x.event_type = some EventType.bay_exit →
      x.site_id = some s → x.track_id = some t →
      eng.bay_entries s t = some entry → entry.timestamp = some ets →
      x.timestamp = some xts → x.event_id = some eid →
      x.tenant_id = some tid → x.bay_id = some bay →
      (processEvent eng x).engine.bay_entries s t = none ∧
      (∀ s' t', ¬(s' = s ∧ t' = t) →
        (processEvent eng x).engine.bay_entries s' t' = eng.bay_entries s' t') ∧
      (processEvent eng x).metrics.map
          (fun m => (m.metric_name, m.value, m.is_estimated)) =
        [(MetricName.rack_time, xts - ets, true)]) ∧
    ∀ (x : RawEvent), x.event_type = some EventType.bay_exit →
      x.site_id = some s → x.track_id = some t →
      eng.bay_entries s t = none →
      (processEvent eng x).metrics = [] ∧
      (∀ s' t', (processEvent eng x).engine.bay_entries s' t' =
        eng.bay_entries s' t') ∧
      (processEvent eng x).logs =
        [⟨LogLevel.warning, "No bay entry found for track"⟩] := by
  refine ⟨?_, ?_, ?_⟩
  · intro e hτ hs ht
    refine ⟨?_, ?_, ?_⟩
    · simp [processEvent, hτ, onBayEntry, hs, ht]
    · intro s' t' hne
      simp [processEvent, hτ, onBayEntry, hs, ht, hne]
    · simp [processEvent, hτ, onBayEntry, hs, ht]
  · intro x entry ets xts eid tid bay hτ hs ht hentry hets hxts heid htid hbay
    refine ⟨?_, ?_, ?_⟩
    · simp [processEvent, hτ, onBayExit, hs, ht, hentry, hets, hxts, heid,
        htid, hbay]
    · intro s' t' hne
      simp [processEvent, hτ, onBayExit, hs, ht, hentry, hets, hxts, heid,
        htid, hbay, hne]
    · simp [processEvent, hτ, onBayExit, hs, ht, hentry, hets, hxts, heid,
        htid, hbay]
  · intro x hτ hs ht hentry
    refine ⟨?_, ?_, ?_⟩ <;>
      simp [processEvent, hτ, onBayExit, hs, ht, hentry]

/-- C4 witness: two entries at t=10 and t=20, exit at t=50 gives rack
time 50 − 20 (the overwritten second entry), then an exit with nothing
stored emits nothing. -/
theorem rack_time_spec_witness :
    ((processEvent wEngBay (wBayExit 50)).engine.bay_entries 7 "B" = none ∧
      (∀ s' t', ¬(s' = 7 ∧ t' = "B") →
        (processEvent wEngBay (wBayExit 50)).engine.bay_entries s' t' =
          wEngBay.bay_entries s' t') ∧
      (processEvent wEngBay (wBayExit 50)).metrics.map
          (fun m => (m.metric_name, m.value, m.is_estimated)) =
        [(MetricName.rack_time, 50 - 20, true)]) ∧
    ((processEvent MetricsEngine.init (wBayExit 50)).metrics = [] ∧
      (∀ s' t', (processEvent MetricsEngine.init (wBayExit 50)).engine.bay_entries s' t' =
        MetricsEngine.init.bay_entries s' t') ∧
      (processEvent MetricsEngine.init (wBayExit 50)).logs =
        [⟨LogLevel.warning, "No bay entry found for track"⟩]) :=
  ⟨(rack_time_spec wEngBay 7 "B").2.1 (wBayExit 50) (wBayEntry 20) 20 50 5 1 11
      rfl rfl rfl (by decide) rfl rfl rfl rfl rfl,
    (rack_time_spec MetricsEngine.init 7 "B").2.2 (wBayExit 50)
      rfl rfl rfl rfl⟩

/-- After any `process_event` call, each per-site lobby counter is
either unchanged, incremented by one, or decremented floored at zero. -/
theorem processEvent_lobby_counts (eng : MetricsEngine) (e : RawEvent)
    (s' : Nat) :
    (processEvent eng e).engine.lobby_counts s' = eng.lobby_counts s' ∨
    (processEvent eng e).engine.lobby_counts s' = eng.lobby_counts s' + 1 ∨
    (processEvent eng e).engine.lobby_counts s' =
      max 0 (eng.lobby_counts s' - 1) := by
  cases hτ : e.event_type with
  | none => exact Or.inl (by simp [processEvent, hτ])
  | some τ =>
    cases τ with
    | vehicle_arrival =>
      refine Or.inl ?_
      rcases hs : e.site_id with _ | site
      · simp [processEvent, hτ, onVehicleArrival, hs]
      · rcases hts : e.timestamp with _ | ts
        · simp [processEvent, hτ, onVehicleArrival, hs, hts]
        · by_cases hall :
            ((eng.arrivals_buffer site ++ [e]).all fun a => a.timestamp.isSome)
              = true
          · simp [processEvent, hτ, onVehicleArrival, hs, hts, hall]
          · simp [processEvent, hτ, onVehicleArrival, hs, hts, hall]
    | greet_started =>
      refine Or.inl ?_
      simp only [processEvent, hτ]
      rcases onGreetStarted eng e with logs | ⟨m, logs⟩
      · rfl
      · rcases m with _ | m <;> rfl
    | bay_entry =>
      refine Or.inl ?_
      simp only [processEvent, hτ, onBayEntry]
      rcases e.site_id with _ | site
      · rfl
      · rcases e.track_id with _ | track <;> rfl
    | bay_exit =>
      refine Or.inl ?_
      rcases hs : e.site_id with _ | site
      · simp [processEvent, hτ, onBayExit, hs]
      · rcases ht : e.track_id with _ | track
        · simp [processEvent, hτ, onBayExit, hs, ht]
        · rcases hb : eng.bay_entries site track with _ | entry
          · simp [processEvent, hτ, onBayExit, hs, ht, hb]
          · rcases hets : entry.timestamp with _ | ets
            · simp [processEvent, hτ, onBayExit, hs, ht, hb, hets]
            · rcases hxts : e.timestamp with _ | xts
              · simp [processEvent, hτ, onBayExit, hs, ht, hb, hets, hxts]
              · rcases heid : e.event_id with _ | eid <;>
                  rcases htid : e.tenant_id with _ | tid <;>
                  rcases hbay : e.bay_id with _ | bay <;>
                  simp [processEvent, hτ, onBayExit, hs, ht, hb, hets, hxts,
                    heid, htid, hbay]
    | lobby_enter =>
      rcases hs : e.site_id with _ | site
      · exact Or.inl (by simp [processEvent, hτ, onLobbyEnter, hs])
      · by_cases hss : s' = site
        · subst hss
          refine Or.inr (Or.inl ?_)
          simp only [processEvent, hτ, onLobbyEnter, hs]
          split <;> simp
        · refine Or.inl ?_
          simp only [processEvent, hτ, onLobbyEnter, hs]
          split <;> simp [hss]
    | lobby_exit =>
      rcases hs : e.site_id with _ | site
      · exact Or.inl (by simp [processEvent, hτ, onLobbyExit, hs])
      · by_cases hss : s' = site
        · subst hss
          refine Or.inr (Or.inr ?_)
          simp only [processEvent, hτ, onLobbyExit, hs]
          split <;> simp
        · refine Or.inl ?_
          simp only [processEvent, hτ, onLobbyExit, hs]
          split <;> simp [hss]
    | vehicle_exit => exact Or.inl (by simp [processEvent, hτ])
    | perimeter_crossing => exact Or.inl (by simp [processEvent, hτ])
    | system_heartbeat => exact Or.inl (by simp [processEvent, hτ])
    | zone_dwell => exact Or.inl (by simp [processEvent, hτ])
    | line_crossing => exact Or.inl (by simp [processEvent, hτ])

/-- C5: the per-site lobby counter is incremented on Lobby-Enter,
decremented floored at zero on Lobby-Exit, each such event returns one
Lobby-Occupancy metric carrying the counter's value at that instant,
the counter can never go negative under any event stream, and three
exits on a fresh engine leave it at 0. -/
theorem lobby_occupancy_spec (eng : MetricsEngine) (e : RawEvent)
    (s eid tid : Nat) (ts : Time)
    (hs : e.site_id = some s) (heid : e.event_id = some eid)
    (htid : e.tenant_id = some tid) (hts : e.timestamp = some ts) :
    (e.event_type = some EventType.lobby_enter →
      (processEvent eng e).engine.lobby_counts s = eng.lobby_counts s + 1 ∧
      (processEvent eng e).metrics.map (fun m => (m.metric_name, m.value)) =
        [(MetricName.lobby_occupancy, ((eng.lobby_counts s + 1 : Int) : ℚ))]) ∧
    (e.event_type = some EventType.lobby_exit →
      (processEvent eng e).engine.lobby_counts s =
        max 0 (eng.lobby_counts s - 1) ∧
      (processEvent eng e).metrics.map (fun m => (m.metric_name, m.value)) =
        [(MetricName.lobby_occupancy,
          ((max 0 (eng.lobby_counts s - 1) : Int) : ℚ))]) ∧
    ((∀ s0, 0 ≤ eng.lobby_counts s0) →
      ∀ (e' : RawEvent) (s0 : Nat),
        0 ≤ (processEvent eng e').engine.lobby_counts s0) ∧
    (processEvent (processEvent (processEvent MetricsEngine.init
        wLobbyExit).engine wLobbyExit).engine wLobbyExit).engine.lobby_counts 7
      = 0 := by
  refine ⟨?_, ?_, ?_, by decide⟩
  · intro hτ
    simp only [processEvent, hτ, onLobbyEnter, hs, getLobbyOccupancy, heid,
      htid, hts]
    constructor
    · simp
    · simp
  · intro hτ
    simp only [processEvent, hτ, onLobbyExit, hs, getLobbyOccupancy, heid,
      htid, hts]
    constructor
    · simp
    · simp
  · intro hnn e' s0
    rcases processEvent_lobby_counts eng e' s0 with h | h | h
    · rw [h]
      exact hnn s0
    · rw [h]
      have := hnn s0
      omega
    · rw [h]
      exact le_max_left 0 _

/-- C5 witness: a concrete lobby-enter on a fresh engine. -/
theorem lobby_occupancy_spec_witness :
    ((wLobbyEnter.event_type = some EventType.lobby_enter →
      (processEvent MetricsEngine.init wLobbyEnter).engine.lobby_counts 7 =
        MetricsEngine.init.lobby_counts 7 + 1 ∧
      (processEvent MetricsEngine.init wLobbyEnter).metrics.map
          (fun m => (m.metric_name, m.value)) =
        [(MetricName.lobby_occupancy,
          ((MetricsEngine.init.lobby_counts 7 + 1 : Int) : ℚ))]) ∧
    (wLobbyEnter.event_type = some EventType.lobby_exit →
      (processEvent MetricsEngine.init wLobbyEnter).engine.lobby_counts 7 =
        max 0 (MetricsEngine.init.lobby_counts 7 - 1) ∧
      (processEvent MetricsEngine.init wLobbyEnter).metrics.map
          (fun m => (m.metric_name, m.value)) =
        [(MetricName.lobby_occupancy,
          ((max 0 (MetricsEngine.init.lobby_counts 7 - 1) : Int) : ℚ))]) ∧
    ((∀ s0, 0 ≤ MetricsEngine.init.lobby_counts s0) →
      ∀ (e' : RawEvent) (s0 : Nat),
        0 ≤ (processEvent MetricsEngine.init e').engine.lobby_counts s0) ∧
    (processEvent (processEvent (processEvent MetricsEngine.init
        wLobbyExit).engine wLobbyExit).engine wLobbyExit).engine.lobby_counts 7
      = 0) :=
  lobby_occupancy_spec MetricsEngine.init wLobbyEnter 7 6 1 10
    rfl rfl rfl rfl

/-! ## TTG fold lemmas (C1) -/

theorem ttgFoldMin_cons_none (d : Time) (rest : List Time) :
    ttgFoldMin none (d :: rest) = ttgFoldMin (some d) rest := rfl

theorem ttgFoldMin_cons_some (m d : Time) (rest : List Time) :
    ttgFoldMin (some m) (d :: rest) =
      ttgFoldMin (if d < m then some d else some m) rest := rfl

theorem ttgFoldMin_isSome (ds : List Time) :
    ∀ m : Time, ∃ v, ttgFoldMin (some m) ds = some v := by
  induction ds with
  | nil => exact fun m => ⟨m, rfl⟩
  | cons d rest ih =>
    intro m
    rw [ttgFoldMin_cons_some]
    by_cases h : d < m
    · rw [if_pos h]
      exact ih d
    · rw [if_neg h]
      exact ih m

theorem ttgFoldMin_none_iff (ds : List Time) :
    ttgFoldMin none ds = none ↔ ds = [] := by
  cases ds with
  | nil => simp [ttgFoldMin]
  | cons d rest =>
    obtain ⟨v, hv⟩ := ttgFoldMin_isSome rest d
    rw [ttgFoldMin_cons_none]
    simp [hv]

theorem ttgFoldMin_min (ds : List Time) :
    ∀ (acc : Option Time) (v : Time), ttgFoldMin acc ds = some v →
      v ∈ acc.toList ++ ds ∧ ∀ d ∈ acc.toList ++ ds, v ≤ d := by
  induction ds with
  | nil =>
    intro acc v h
    cases acc with
    | none => exact Option.noConfusion h
    | some m =>
      have hm : m = v := by
        simpa [ttgFoldMin] using h
      subst hm
      simp
  | cons d rest ih =>
    intro acc v h
    cases acc with
    | none =>
      rw [ttgFoldMin_cons_none] at h
      obtain ⟨hmem, hbd⟩ := ih (some d) v h
      simp only [Option.toList_some, List.singleton_append] at hmem hbd
      refine ⟨?_, ?_⟩
      · simpa using hmem
      · intro x hx
        simp only [Option.toList_none, List.nil_append] at hx
        exact hbd x (by simpa using hx)
    | some m =>
      rw [ttgFoldMin_cons_some] at h
      by_cases hdm : d < m
      · rw [if_pos hdm] at h
        obtain ⟨hmem, hbd⟩ := ih (some d) v h
        simp only [Option.toList_some, List.singleton_append, List.mem_cons] at hmem hbd
        have hvd : v ≤ d := hbd d (Or.inl rfl)
        refine ⟨?_, ?_⟩
        · simp only [Option.toList_some, List.singleton_append, List.mem_cons]
          tauto
        · intro x hx
          simp only [Option.toList_some, List.singleton_append, List.mem_cons] at hx
          rcases hx with hx | hx | hx
          · exact hx ▸ le_trans hvd (le_of_lt hdm)
          · exact hx ▸ hvd
          · exact hbd x (Or.inr hx)
      · rw [if_neg hdm] at h
        obtain ⟨hmem, hbd⟩ := ih (some m) v h
        simp only [Option.toList_some, List.singleton_append, List.mem_cons] at hmem hbd
        have hmd : m ≤ d := le_of_not_lt hdm
        have hvm : v ≤ m := hbd m (Or.inl rfl)
        refine ⟨?_, ?_⟩
        · simp only [Option.toList_some, List.singleton_append, List.mem_cons]
          tauto
        · intro x hx
          simp only [Option.toList_some, List.singleton_append, List.mem_cons] at hx
          rcases hx with hx | hx | hx
          · exact hx ▸ hvm
          · exact hx ▸ le_trans hvm hmd
          · exact hbd x (Or.inr hx)

theorem ttgDeltas_cons (vtrack : String) (gt : Time) (a : RawEvent)
    (l : List RawEvent) (tid : String) (ts : Time)
    (htid : a.track_id = some tid) (hts : a.timestamp = some ts) :
    ttgDeltas (a :: l) vtrack gt =
      if tid = vtrack ∧ 0 < gt - ts ∧ gt - ts < ttg_max_match_window
      then (gt - ts) :: ttgDeltas l vtrack gt
      else ttgDeltas l vtrack gt := by
  by_cases hc : tid = vtrack ∧ 0 < gt - ts ∧ gt - ts < ttg_max_match_window
  · rw [if_pos hc]
    simp only [ttgDeltas, List.filterMap_cons, htid, hts, if_pos hc]
  · rw [if_neg hc]
    simp only [ttgDeltas, List.filterMap_cons, htid, hts, if_neg hc]

/-- The `_on_greet_started` loop computes exactly the first-seen minimum
of the spec's candidate deltas, provided every buffered arrival carries
its `track_id` and `timestamp` keys. -/
theorem findMatchGo_ok (vtrack : String) (gt : Time) (l : List RawEvent)
    (hwf : ∀ a ∈ l, a.track_id.isSome ∧ a.timestamp.isSome) :
    ∀ acc : Option Time,
      findMatchGo vtrack gt l acc = .ok (ttgFoldMin acc (ttgDeltas l vtrack gt)) := by
  induction l with
  | nil => intro acc; rfl
  | cons a rest ih =>
    intro acc
    obtain ⟨hta, htsa⟩ := hwf a (List.mem_cons_self a rest)
    obtain ⟨tid, htid⟩ := Option.isSome_iff_exists.mp hta
    obtain ⟨ts, hts⟩ := Option.isSome_iff_exists.mp htsa
    have hrest : ∀ x ∈ rest, x.track_id.isSome ∧ x.timestamp.isSome :=
      fun x hx => hwf x (List.mem_cons_of_mem _ hx)
    rw [ttgDeltas_cons vtrack gt a rest tid ts htid hts]
    by_cases h1 : tid = vtrack
    · by_cases h2 : 0 < gt - ts ∧ gt - ts < ttg_max_match_window
      · rw [if_pos ⟨h1, h2.1, h2.2⟩]
        cases acc with
        | none =>
          rw [ttgFoldMin_cons_none]
          simp only [findMatchGo, htid, hts]
          rw [if_pos h1, if_pos h2]
          exact ih hrest (some (gt - ts))
        | some m =>
          rw [ttgFoldMin_cons_some]
          simp only [findMatchGo, htid, hts]
          rw [if_pos h1, if_pos h2]
          by_cases h3 : gt - ts < m
          · rw [if_pos h3, if_pos h3]
            exact ih hrest (some (gt - ts))
          · rw [if_neg h3, if_neg h3]
            exact ih hrest (some m)
      · rw [if_neg (fun hc => h2 ⟨hc.2.1, hc.2.2⟩)]
        simp only [findMatchGo, htid, hts]
        rw [if_pos h1, if_neg h2]
        exact ih hrest acc
    · rw [if_neg (fun hc => h1 hc.1)]
      simp only [findMatchGo, htid, hts]
      rw [if_neg h1]
      exact ih hrest acc

/-- C1: on a Greet-Started event the emitted TTG metric value is the
smallest positive delta over buffered same-site arrivals with matching
`track_id` whose arrival is strictly before the greet and strictly
inside the 5-minute window (`ttgDeltas`); exactly one metric is emitted
iff a candidate qualifies, and the engine state is unchanged. -/
theorem ttg_greet_match (eng : MetricsEngine) (e : RawEvent)
    (s eid tid cam zid : Nat) (gt : Time) (vt : String)
    (hτ : e.event_type = some EventType.greet_started)
    (hs : e.site_id = some s) (hts : e.timestamp = some gt)
    (hvt : e.vehicle_track_id = some vt)
    (heid : e.event_id = some eid) (htid : e.tenant_id = some tid)
    (hcam : e.camera_id = some cam) (hzid : e.zone_id = some zid)
    (hwf : ∀ a ∈ eng.arrivals_buffer s, a.track_id.isSome ∧ a.timestamp.isSome) :
    ((processEvent eng e).metrics.map (fun m => m.value) =
      (ttgFoldMin none (ttgDeltas (eng.arrivals_buffer s) vt gt)).toList) ∧
    (∀ m ∈ (processEvent eng e).metrics,
      m.metric_name = MetricName.time_to_greet ∧ m.unit = "seconds" ∧
      m.window_start = gt ∧
      m.value ∈ ttgDeltas (eng.arrivals_buffer s) vt gt ∧
      ∀ d ∈ ttgDeltas (eng.arrivals_buffer s) vt gt, m.value ≤ d) ∧
    ((processEvent eng e).metrics = [] ↔
      ttgDeltas (eng.arrivals_buffer s) vt gt = []) ∧
    (processEvent eng e).engine = eng := by
  have hgo := findMatchGo_ok vt gt (eng.arrivals_buffer s) hwf none
  cases hmin : ttgFoldMin none (ttgDeltas (eng.arrivals_buffer s) vt gt) with
  | none =>
    rw [hmin] at hgo
    have hde : ttgDeltas (eng.arrivals_buffer s) vt gt = [] :=
      (ttgFoldMin_none_iff _).mp hmin
    simp only [processEvent, hτ, onGreetStarted, hs, hts, hvt, hgo, heid]
    refine ⟨by simp, ?_, ?_, by simp⟩
    · intro m hm
      simp at hm
    · simp [hde]
  | some v =>
    rw [hmin] at hgo
    obtain ⟨hmem, hbd⟩ := ttgFoldMin_min _ none v hmin
    simp only [Option.toList_none, List.nil_append] at hmem hbd
    have hne : ttgDeltas (eng.arrivals_buffer s) vt gt ≠ [] := by
      intro hcon
      rw [hcon] at hmem
      simp at hmem
    simp only [processEvent, hτ, onGreetStarted, hs, hts, hvt, hgo, heid,
      htid, hcam, hzid]
    refine ⟨by simp, ?_, ?_, by simp⟩
    · intro m hm
      simp only [List.mem_singleton] at hm
      subst hm
      exact ⟨rfl, rfl, rfl, hmem, hbd⟩
    · simp [hne]

/-- C1 witness: arrivals for "A" at t=0 and t=90, greet at t=100 yields
the single value 10 (nearest preceding arrival, not 100); an arrival at
t=0 greeted at t=400 (outside the 5-minute window) yields no metric. -/
theorem ttg_greet_match_witness :
    (processEvent wEngTTG (wGreet 100)).metrics.map (fun m => m.value) = [10] ∧
    (processEvent wEngTTGLate (wGreet 400)).metrics = [] := by
  constructor
  · have h := (ttg_greet_match wEngTTG (wGreet 100) 7 2 1 3 9 100 "A"
      rfl rfl rfl rfl rfl rfl rfl rfl (by decide)).1
    rw [h]
    norm_num +decide [ttgDeltas, ttgFoldMin, wEngTTG, wArrival,
      ttg_max_match_window, List.filterMap_cons, List.foldl_cons,
      List.foldl_nil, Option.toList]
  · have h := (ttg_greet_match wEngTTGLate (wGreet 400) 7 2 1 3 9 400 "A"
      rfl rfl rfl rfl rfl rfl rfl rfl (by decide)).2.2.1
    refine h.mpr ?_
    norm_num +decide [ttgDeltas, wEngTTGLate, wArrival, ttg_max_match_window,
      List.filterMap_cons]

/-! ## Dwell-scan lemmas (C2) -/

theorem dwell_scan_zones_fst (eng : ZoneLineEngine) (now : Time)
    (track : String) (cls : ObjectClass) (zs : List (Nat × Time)) :
    (dwell_scan_zones eng now track cls zs).1 =
      zs.map (fun p => (p.1, if dwell_fires eng now p.1 p.2 then now else p.2)) := by
  induction zs with
  | nil => rfl
  | cons p rest ih =>
    obtain ⟨zid, t0⟩ := p
    cases hz : alookup eng.zones zid with
    | none => simp [dwell_scan_zones, hz, dwell_fires, ih]
    | some zone =>
      by_cases hth : effective_threshold eng zone ≤ now - t0
      · simp [dwell_scan_zones, hz, dwell_fires, hth, ih]
      · simp [dwell_scan_zones, hz, dwell_fires, hth, ih]

theorem dwell_scan_zones_snd (eng : ZoneLineEngine) (now : Time)
    (track : String) (cls : ObjectClass) (zs : List (Nat × Time)) :
    (dwell_scan_zones eng now track cls zs).2 =
      zs.filterMap (fun p =>
        match alookup eng.zones p.1 with
        | none => none
        | some zone =>
          if effective_threshold eng zone ≤ now - p.2 then
            some (DomainEvent.zoneDwell eng.tenant_id eng.site_id
              eng.camera_id track cls p.1 (now - p.2) (9/10))
          else none) := by
  induction zs with
  | nil => rfl
  | cons p rest ih =>
    obtain ⟨zid, t0⟩ := p
    cases hz : alookup eng.zones zid with
    | none => simp [dwell_scan_zones, hz, List.filterMap_cons, ih]
    | some zone =>
      by_cases hth : effective_threshold eng zone ≤ now - t0 <;>
        simp [dwell_scan_zones, hz, hth, List.filterMap_cons, ih]

theorem check_dwell_events_tracked (eng : ZoneLineEngine) (now : Time) :
    (check_dwell_events eng now).1.tracked_objects =
      eng.tracked_objects.map (fun p =>
        (p.1, (⟨p.2.track_id, p.2.object_class, p.2.first_seen, p.2.last_seen,
          (dwell_scan_zones eng now p.1 p.2.object_class
            p.2.zone_entry_times).1, p.2.lines_crossed⟩ : TrackedObject))) := by
  simp only [check_dwell_events, List.map_map]
  rfl

theorem check_dwell_events_snd (eng : ZoneLineEngine) (now : Time) :
    (check_dwell_events eng now).2 =
      (eng.tracked_objects.map (fun p =>
        (dwell_scan_zones eng now p.1 p.2.object_class
          p.2.zone_entry_times).2)).flatten := by
  simp only [check_dwell_events, List.map_map]
  rfl

/-- C2: for a tracked object resident in a configured zone since `t0`,
one dwell scan at `now` emits the Zone-Dwell event (with
`dwell_seconds = now - t0`) exactly when `now - t0` reaches the zone's
effective threshold, and then resets that entry time to `now` (leaving
it at `t0` otherwise); with a 2-second threshold and scans at
t=1,…,5 from an entry at t=0, exactly two events fire in total. -/
theorem dwell_scan_correct (eng : ZoneLineEngine) (now : Time)
    (track : String) (obj : TrackedObject) (zid : Nat) (t0 : Time)
    (zone : Zone)
    (hnd : (eng.tracked_objects.map Prod.fst).Nodup)
    (hobj : alookup eng.tracked_objects track = some obj)
    (hznd : (obj.zone_entry_times.map Prod.fst).Nodup)
    (ht0 : alookup obj.zone_entry_times zid = some t0)
    (hzone : alookup eng.zones zid = some zone) :
    (DomainEvent.zoneDwell eng.tenant_id eng.site_id eng.camera_id track
        obj.object_class zid (now - t0) (9/10) ∈ (check_dwell_events eng now).2
      ↔ effective_threshold eng zone ≤ now - t0) ∧
    (∃ obj2,
      alookup (check_dwell_events eng now).1.tracked_objects track = some obj2 ∧
      alookup obj2.zone_entry_times zid =
        some (if effective_threshold eng zone ≤ now - t0 then now else t0)) ∧
    (dwellScanFold wZoneEng [1, 2, 3, 4, 5]).2.length = 2 := by
  refine ⟨?_, ?_, ?_⟩
  · rw [check_dwell_events_snd]
    constructor
    · intro hmem
      rw [List.mem_flatten] at hmem
      obtain ⟨l, hl, hevl⟩ := hmem
      rw [List.mem_map] at hl
      obtain ⟨p, hp, rfl⟩ := hl
      rw [dwell_scan_zones_snd, List.mem_filterMap] at hevl
      obtain ⟨q, hq, hmatch⟩ := hevl
      cases hz' : alookup eng.zones q.1 with
      | none =>
        rw [hz'] at hmatch
        exact Option.noConfusion hmatch
      | some zone' =>
        simp only [hz'] at hmatch
        by_cases hth : effective_threshold eng zone' ≤ now - q.2
        · rw [if_pos hth] at hmatch
          injection hmatch with hev
          injection hev with h1 h2 h3 h4 h5 h6 h7 h8
          have hpo : alookup eng.tracked_objects track = some p.2 := by
            rw [← h4]
            exact alookup_of_mem_nodup _ _ _ hnd (by
              rw [show (p.1, p.2) = p from rfl]
              exact hp)
          have hpo2 : p.2 = obj := by
            rw [hpo] at hobj
            exact Option.some.inj hobj
          have hq0 : alookup obj.zone_entry_times zid = some q.2 := by
            rw [← h6, ← hpo2]
            exact alookup_of_mem_nodup _ _ _ (hpo2 ▸ hznd) (by
              rw [show (q.1, q.2) = q from rfl]
              exact hq)
          have hq2 : q.2 = t0 := by
            rw [hq0] at ht0
            exact Option.some.inj ht0
          have hzz : zone' = zone := by
            rw [h6, hzone] at hz'
            exact (Option.some.inj hz').symm
          rw [hzz, hq2] at hth
          exact hth
        · rw [if_neg hth] at hmatch
          exact Option.noConfusion hmatch
    · intro hth
      rw [List.mem_flatten]
      refine ⟨_, List.mem_map.mpr ⟨(track, obj), mem_of_alookup _ _ _ hobj, rfl⟩, ?_⟩
      rw [dwell_scan_zones_snd, List.mem_filterMap]
      refine ⟨(zid, t0), mem_of_alookup _ _ _ ht0, ?_⟩
      simp only [hzone]
      rw [if_pos hth]
  · rw [check_dwell_events_tracked,
      alookup_map_pair (fun p =>
        (⟨p.2.track_id, p.2.object_class, p.2.first_seen, p.2.last_seen,
          (dwell_scan_zones eng now p.1 p.2.object_class
            p.2.zone_entry_times).1, p.2.lines_crossed⟩ : TrackedObject))
        eng.tracked_objects track, hobj]
    refine ⟨_, rfl, ?_⟩
    rw [dwell_scan_zones_fst,
      alookup_map_pair (fun p => if dwell_fires eng now p.1 p.2 then now else p.2)
        obj.zone_entry_times zid, ht0]
    simp [dwell_fires, hzone]
  · norm_num +decide [dwellScanFold, check_dwell_events, dwell_scan_zones,
      effective_threshold, alookup, aset, wZoneEng, on_zone_entry,
      update_tracking, load_zones, ZoneLineEngine.init, List.foldl_cons,
      List.foldl_nil, List.filterMap_cons]

/-- C2 witness: track "T" resident in bay zone 5 (threshold 2s) since
t=0, scanned at t=3. -/
theorem dwell_scan_correct_witness :
    (DomainEvent.zoneDwell wZoneEng.tenant_id wZoneEng.site_id
        wZoneEng.camera_id "T" ObjectClass.vehicle 5 (3 - 0) (9/10)
        ∈ (check_dwell_events wZoneEng 3).2
      ↔ effective_threshold wZoneEng ⟨5, ZoneType.bay, some 2⟩ ≤ 3 - 0) ∧
    (∃ obj2,
      alookup (check_dwell_events wZoneEng 3).1.tracked_objects "T" = some obj2 ∧
      alookup obj2.zone_entry_times 5 =
        some (if effective_threshold wZoneEng ⟨5, ZoneType.bay, some 2⟩ ≤ 3 - 0
          then 3 else 0)) ∧
    (dwellScanFold wZoneEng [1, 2, 3, 4, 5]).2.length = 2 :=
  dwell_scan_correct wZoneEng 3 "T"
    ⟨"T", ObjectClass.vehicle, 0, 0, [(5, 0)], []⟩ 5 0
    ⟨5, ZoneType.bay, some 2⟩
    (by decide) (by decide) (by decide) (by decide) (by decide)

/-- What `check_greet_proximity` emits: exactly one Greet-Started event
per greet zone and (vehicle, person) pair of residents whose smaller
dwell reaches 1 second, carrying that minimum as `proximity_seconds`. -/
theorem check_greet_proximity_mem (eng : ZoneLineEngine) (now : Time)
    (ev : DomainEvent) :
    ev ∈ check_greet_proximity eng now ↔
      ∃ zone, zone ∈ eng.zones.map Prod.snd ∧
        zone.zone_type = ZoneType.greet_zone ∧
        ∃ v p, v ∈ eng.tracked_objects ∧ p ∈ eng.tracked_objects ∧
          v.2.object_class = ObjectClass.vehicle ∧
          p.2.object_class = ObjectClass.person ∧
          ∃ tv tp, alookup v.2.zone_entry_times zone.zone_id = some tv ∧
            alookup p.2.zone_entry_times zone.zone_id = some tp ∧
            1 ≤ min (now - tv) (now - tp) ∧
            ev = DomainEvent.greetStarted eng.tenant_id eng.site_id
              eng.camera_id v.2.track_id p.2.track_id zone.zone_id
              (min (now - tv) (now - tp)) (17/20) := by
  simp only [check_greet_proximity]
  rw [List.mem_flatMap]
  constructor
  · rintro ⟨zone, hz, hev⟩
    rw [List.mem_filter] at hz
    obtain ⟨hzm, hzt⟩ := hz
    simp only [greet_pairs_for_zone] at hev
    rw [List.mem_flatMap] at hev
    obtain ⟨v, hv, hev⟩ := hev
    rw [List.mem_filter] at hv
    obtain ⟨hv1, hv3⟩ := hv
    rw [List.mem_filter] at hv1
    obtain ⟨hv1, hv2⟩ := hv1
    rw [List.mem_filterMap] at hev
    obtain ⟨p, hp, hmatch⟩ := hev
    rw [List.mem_filter] at hp
    obtain ⟨hp1, hp3⟩ := hp
    rw [List.mem_filter] at hp1
    obtain ⟨hp1, hp2⟩ := hp1
    cases htv : alookup v.2.zone_entry_times zone.zone_id with
    | none =>
      rw [htv] at hmatch
      cases htp : alookup p.2.zone_entry_times zone.zone_id <;>
        rw [htp] at hmatch <;> exact Option.noConfusion hmatch
    | some tv =>
      cases htp : alookup p.2.zone_entry_times zone.zone_id with
      | none =>
        rw [htv, htp] at hmatch
        exact Option.noConfusion hmatch
      | some tp =>
        simp only [htv, htp] at hmatch
        by_cases hmin : 1 ≤ min (now - tv) (now - tp)
        · rw [if_pos hmin] at hmatch
          refine ⟨zone, hzm, by simpa using hzt, v, p, hv1, hp1,
            by simpa using hv3, by simpa using hp3, tv, tp, htv, htp, hmin,
            ?_⟩
          injection hmatch with hev
          exact hev.symm
        · rw [if_neg hmin] at hmatch
          exact Option.noConfusion hmatch
  · rintro ⟨zone, hzm, hzt, v, p, hv, hp, hvc, hpc, tv, tp, htv, htp, hmin,
      rfl⟩
    refine ⟨zone, ?_, ?_⟩
    · rw [List.mem_filter]
      exact ⟨hzm, by simp [hzt]⟩
    · simp only [greet_pairs_for_zone]
      rw [List.mem_flatMap]
      refine ⟨v, ?_, ?_⟩
      · rw [List.mem_filter]
        refine ⟨?_, by simp [hvc]⟩
        rw [List.mem_filter]
        exact ⟨hv, by simp [htv]⟩
      · rw [List.mem_filterMap]
        refine ⟨p, ?_, ?_⟩
        · rw [List.mem_filter]
          refine ⟨?_, by simp [hpc]⟩
          rw [List.mem_filter]
          exact ⟨hp, by simp [htp]⟩
        · simp only [htv, htp]
          rw [if_pos hmin]

/-- C3: per greet zone, the scan emits a Greet-Started event for every
(vehicle, person) pair of residents with `min(vehicle_dwell,
person_dwell) ≥ 1`, carrying that minimum as `proximity_seconds`; every
emitted event arises from such a pair (full cross product, no
exclusivity); concretely, 2 vehicles and 1 person resident ≥ 1s in one
greet zone yield exactly 2 events per scan tick. -/
theorem greet_cross_product (eng : ZoneLineEngine) (now : Time)
    (zone : Zone) (v p : String × TrackedObject) (tv tp : Time)
    (hzm : zone ∈ eng.zones.map Prod.snd)
    (hzt : zone.zone_type = ZoneType.greet_zone)
    (hv : v ∈ eng.tracked_objects)
    (hvc : v.2.object_class = ObjectClass.vehicle)
    (hp : p ∈ eng.tracked_objects)
    (hpc : p.2.object_class = ObjectClass.person)
    (htv : alookup v.2.zone_entry_times zone.zone_id = some tv)
    (htp : alookup p.2.zone_entry_times zone.zone_id = some tp) :
    (DomainEvent.greetStarted eng.tenant_id eng.site_id eng.camera_id
        v.2.track_id p.2.track_id zone.zone_id
        (min (now - tv) (now - tp)) (17/20) ∈ check_greet_proximity eng now
      ↔ 1 ≤ min (now - tv) (now - tp)) ∧
    (∀ ev ∈ check_greet_proximity eng now,
      ∃ zone2, zone2 ∈ eng.zones.map Prod.snd ∧
        zone2.zone_type = ZoneType.greet_zone ∧
        ∃ v2 p2, v2 ∈ eng.tracked_objects ∧ p2 ∈ eng.tracked_objects ∧
          v2.2.object_class = ObjectClass.vehicle ∧
          p2.2.object_class = ObjectClass.person ∧
          ∃ tv2 tp2, alookup v2.2.zone_entry_times zone2.zone_id = some tv2 ∧
            alookup p2.2.zone_entry_times zone2.zone_id = some tp2 ∧
            1 ≤ min (now - tv2) (now - tp2) ∧
            ev = DomainEvent.greetStarted eng.tenant_id eng.site_id
              eng.camera_id v2.2.track_id p2.2.track_id zone2.zone_id
              (min (now - tv2) (now - tp2)) (17/20)) ∧
    (check_greet_proximity wGreetEng 2).length = 2 := by
  refine ⟨?_, ?_, ?_⟩
  · constructor
    · intro hmem
      rw [check_greet_proximity_mem] at hmem
      obtain ⟨zone2, _, _, v2, p2, _, _, _, _, tv2, tp2, _, _, hmin2, hev⟩ :=
        hmem
      injection hev with h1 h2 h3 h4 h5 h6 h7 h8
      rw [h7]
      exact hmin2
    · intro hmin
      rw [check_greet_proximity_mem]
      exact ⟨zone, hzm, hzt, v, p, hv, hp, hvc, hpc, tv, tp, htv, htp, hmin,
        rfl⟩
  · intro ev hev
    exact (check_greet_proximity_mem eng now ev).mp hev
  · norm_num +decide [check_greet_proximity, greet_pairs_for_zone, alookup,
      aset, wGreetEng, on_zone_entry, update_tracking, load_zones,
      ZoneLineEngine.init, List.filterMap_cons]

/-- C3 witness: vehicles "V1", "V2" and person "P1" resident in greet
zone 5 of `wGreetEng` since t=0, scanned at t=2. -/
theorem greet_cross_product_witness :
    (DomainEvent.greetStarted wGreetEng.tenant_id wGreetEng.site_id
        wGreetEng.camera_id "V1" "P1" 5 (min (2 - 0) (2 - 0)) (17/20)
        ∈ check_greet_proximity wGreetEng 2
      ↔ 1 ≤ min ((2 : Time) - 0) (2 - 0)) ∧
    (∀ ev ∈ check_greet_proximity wGreetEng 2,
      ∃ zone2, zone2 ∈ wGreetEng.zones.map Prod.snd ∧
        zone2.zone_type = ZoneType.greet_zone ∧
        ∃ v2 p2, v2 ∈ wGreetEng.tracked_objects ∧
          p2 ∈ wGreetEng.tracked_objects ∧
          v2.2.object_class = ObjectClass.vehicle ∧
          p2.2.object_class = ObjectClass.person ∧
          ∃ tv2 tp2, alookup v2.2.zone_entry_times zone2.zone_id = some tv2 ∧
            alookup p2.2.zone_entry_times zone2.zone_id = some tp2 ∧
            1 ≤ min (2 - tv2) (2 - tp2) ∧
            ev = DomainEvent.greetStarted wGreetEng.tenant_id
              wGreetEng.site_id wGreetEng.camera_id v2.2.track_id
              p2.2.track_id zone2.zone_id (min (2 - tv2) (2 - tp2)) (17/20)) ∧
    (check_greet_proximity wGreetEng 2).length = 2 :=
  greet_cross_product wGreetEng 2 ⟨5, ZoneType.greet_zone, none⟩
    ("V1", ⟨"V1", ObjectClass.vehicle, 0, 0, [(5, 0)], []⟩)
    ("P1", ⟨"P1", ObjectClass.person, 0, 0, [(5, 0)], []⟩) 0 0
    (by decide) (by decide) (by decide) (by decide) (by decide) (by decide)
    (by decide) (by decide)

end DealerEye
